import Mathlib

/-!
Verification development for the Croche-Mahek backend authentication core:
token issuance and verification, the login guardian (admin step-up, lockout,
password check), registration paths, refresh/logout, and the in-memory
rate limiter from middleware/auth.js and routes/auth.js.

Time is modelled as a natural number of milliseconds. JWTs are modelled as
records carrying their payload, the signing secret and the absolute expiry
instant; verification checks the secret and the expiry, mirroring
jsonwebtoken sign/verify with HS256.
-/

namespace CrocheMahek

/-- JWT payload: subject id, and a role claim carried by access tokens only
(refresh tokens carry just the id). -/
structure Claims where
  id : Nat
  role : Option String
deriving DecidableEq

/-- A signed JWT, modelled as its payload, the secret it was signed with and
the absolute expiry time in milliseconds. Two tokens are equal exactly when
their encoded strings would be equal. -/
structure Token where
  claims : Claims
  secret : String
  expiresAt : Nat
deriving DecidableEq

/-- Result of jwt.verify: the decoded claims, or an expiry failure
(TokenExpiredError), or any other verification failure. -/
inductive VerifyResult where
  | ok (claims : Claims)
  | expired
  | invalid
deriving DecidableEq

/-- jwt.sign with an expiresIn duration: stamps the payload with the secret
and the expiry instant. -/
def jwtSign (claims : Claims) (secret : String) (expiresInMs : Nat) (now : Nat) : Token :=
  ⟨claims, secret, now + expiresInMs⟩

/-- jwt.verify: fails with a generic error when the secret does not match,
with TokenExpiredError once the expiry instant has been reached, and
otherwise returns the decoded claims. -/
def jwtVerify (tok : Token) (secret : String) (now : Nat) : VerifyResult :=
  if tok.secret ≠ secret then .invalid
  else if now ≥ tok.expiresAt then .expired
  else .ok tok.claims

/-- One day in milliseconds. -/
def dayMs : Nat := 86400000

/-- Configuration drawn from the environment: the two signing secrets and the
shared admin secret, plus the lockout threshold and duration used by the
credential store (the concrete lockout constants are unspecified by the
sources, so they are parameters here). -/
structure AuthConfig where
  jwtSecret : String
  jwtRefreshSecret : String
  adminSecretToken : String
  lockThreshold : Nat
  lockMs : Nat
deriving DecidableEq

/-- middleware/auth.js generateAccessToken: sign {id, role} with JWT_SECRET,
expiring in 1 day. -/
def generateAccessToken (cfg : AuthConfig) (userId : Nat) (role : String) (now : Nat) : Token :=
  jwtSign ⟨userId, some role⟩ cfg.jwtSecret (1 * dayMs) now

/-- middleware/auth.js generateRefreshToken: sign {id} with
JWT_REFRESH_SECRET, expiring in 7 days. -/
def generateRefreshToken (cfg : AuthConfig) (userId : Nat) (now : Nat) : Token :=
  jwtSign ⟨userId, none⟩ cfg.jwtRefreshSecret (7 * dayMs) now

/-- A persisted user document. The refresh-token list stores the literal
token strings pushed at login. -/
structure UserDoc where
  id : Nat
  username : String
  email : String
  passwordHash : String
  role : String
  isActive : Bool
  loginAttempts : Nat
  lockUntil : Option Nat
  refreshTokens : List Token
deriving DecidableEq

/-- Modelled from the spec: models/userModel.js is not among the provided
sources. A locked account is one whose lock-until timestamp is in the
future. -/
def isLocked (u : UserDoc) (now : Nat) : Bool :=
  match u.lockUntil with
  | none => false
  | some t => now < t

/-- Modelled from the spec: models/userModel.js is not among the provided
sources. incrementLoginAttempts bumps the failed-login counter and, once the
counter reaches the configured threshold, sets lock-until to now plus the
configured lock duration. -/
def incrementLoginAttempts (cfg : AuthConfig) (u : UserDoc) (now : Nat) : UserDoc :=
  let attempts := u.loginAttempts + 1
  { u with
    loginAttempts := attempts
    lockUntil := if cfg.lockThreshold ≤ attempts then some (now + cfg.lockMs) else u.lockUntil }

/-- Modelled from the spec: models/userModel.js is not among the provided
sources. resetLoginAttempts zeroes the failed-login counter and clears
lock-until. -/
def resetLoginAttempts (u : UserDoc) : UserDoc :=
  { u with loginAttempts := 0, lockUntil := none }

/-- Modelled from the spec: models/userModel.js is not among the provided
sources. matchPassword compares the supplied password against the stored
one-way hash, for an ambient hash function. -/
def matchPassword (hash : String → String) (u : UserDoc) (password : String) : Bool :=
  hash password == u.passwordHash

/-- User.findOne({email}). -/
def findOneByEmail (db : List UserDoc) (email : String) : Option UserDoc :=
  db.find? (fun u => u.email == email)

/-- User.findById(id). -/
def findById (db : List UserDoc) (id : Nat) : Option UserDoc :=
  db.find? (fun u => u.id == id)

/-- The admin-token guard of the login handler: the check
`adminToken && adminToken === process.env.ADMIN_SECRET_TOKEN` passes only
when a non-empty token equal to the configured secret was supplied. -/
def adminTokenValid (cfg : AuthConfig) (adminToken : Option String) : Bool :=
  match adminToken with
  | none => false
  | some t => !(t == "") && (t == cfg.adminSecretToken)

/-- Observable outcome of one login request: HTTP status, success flag, the
post-state of the fetched user document when one was fetched and persisted,
whether the password comparison was performed, and the issued tokens. -/
structure LoginOutcome where
  status : Nat
  success : Bool
  user : Option UserDoc
  checkedPassword : Bool
  accessToken : Option Token
  refreshToken : Option Token
deriving DecidableEq

/-- routes/auth.js POST /login: presence check, credential lookup, admin
step-up (incrementing the failed counter on a missing or wrong admin token),
lock check, password check (incrementing on mismatch, resetting on match),
then token issuance and appending the refresh token to the user document. -/
def login (cfg : AuthConfig) (hash : String → String) (db : List UserDoc)
    (email password : String) (adminToken : Option String) (now : Nat) : LoginOutcome :=
  if email = "" ∨ password = "" then
    ⟨400, false, none, false, none, none⟩
  else
    match findOneByEmail db email with
    | none => ⟨401, false, none, false, none, none⟩
    | some user =>
      if user.role = "admin" ∧ adminTokenValid cfg adminToken = false then
        ⟨403, false, some (incrementLoginAttempts cfg user now), false, none, none⟩
      else if isLocked user now then
        ⟨423, false, some user, false, none, none⟩
      else if matchPassword hash user password = false then
        ⟨401, false, some (incrementLoginAttempts cfg user now), true, none, none⟩
      else
        let u1 := resetLoginAttempts user
        let access := generateAccessToken cfg user.id user.role now
        let refreshTok := generateRefreshToken cfg user.id now
        ⟨200, true, some { u1 with refreshTokens := u1.refreshTokens ++ [refreshTok] },
          true, some access, some refreshTok⟩

/-- Outcome of one registration request: HTTP status, success flag, and the
post-state of the user collection. -/
structure RegisterResult where
  status : Nat
  success : Bool
  db : List UserDoc
deriving DecidableEq

/-- routes/auth.js POST /register (self-registration): the admin-role guard
runs first and returns 403 before any other validation; then presence,
password length ≥ 8, the uniqueness check on email or username, and finally
persisting a new user whose role is forced to user. -/
def register (hash : String → String) (db : List UserDoc)
    (username email password : String) (role : Option String) (nextId : Nat) : RegisterResult :=
  if role = some "admin" then
    ⟨403, false, db⟩
  else if username = "" ∨ email = "" ∨ password = "" then
    ⟨400, false, db⟩
  else if password.length < 8 then
    ⟨400, false, db⟩
  else if db.any (fun u => u.email == email || u.username == username) then
    ⟨400, false, db⟩
  else
    ⟨201, true, db ++ [⟨nextId, username, email, hash password, "user", true, 0, none, []⟩]⟩

/-- Outcome of one refresh request: HTTP status, success flag, the issued
access token if any, and the post-state of the user collection. -/
structure RefreshResult where
  status : Nat
  success : Bool
  accessToken : Option Token
  db : List UserDoc
deriving DecidableEq

/-- routes/auth.js POST /refresh: a missing token field fails with 400;
verification failures (signature or expiry) are caught and collapsed to 401;
an absent or inactive subject user fails with 401; a token string absent
from the user's stored refresh-token list fails with 401; on success a new
access token is issued and nothing is persisted. -/
def refresh (cfg : AuthConfig) (db : List UserDoc)
    (refreshToken : Option Token) (now : Nat) : RefreshResult :=
  match refreshToken with
  | none => ⟨400, false, none, db⟩
  | some tok =>
    match jwtVerify tok cfg.jwtRefreshSecret now with
    | .expired => ⟨401, false, none, db⟩
    | .invalid => ⟨401, false, none, db⟩
    | .ok decoded =>
      match findById db decoded.id with
      | none => ⟨401, false, none, db⟩
      | some user =>
        if user.isActive = false then
          ⟨401, false, none, db⟩
        else if tok ∉ user.refreshTokens then
          ⟨401, false, none, db⟩
        else
          ⟨200, true, some (generateAccessToken cfg user.id user.role now), db⟩

/-- Outcome of one logout request: HTTP status, success flag, and the
post-state of the user collection. -/
structure LogoutResult where
  status : Nat
  success : Bool
  db : List UserDoc
deriving DecidableEq

/-- The findByIdAndUpdate $pull step of logout: remove every entry matching
the given token from the caller identified user document, leaving every
other document alone. -/
def pullRefreshToken (callerId : Nat) (tok : Token) (u : UserDoc) : UserDoc :=
  if u.id = callerId then
    { u with refreshTokens := u.refreshTokens.filter (fun t => !(t == tok)) }
  else u

/-- routes/auth.js POST /logout (behind the access guard, so callerId is the
id from the verified access token): when a refresh token was supplied, pull
every matching entry from the caller refresh-token list; always respond with
success. -/
def logout (db : List UserDoc) (callerId : Nat) (refreshToken : Option Token) : LogoutResult :=
  match refreshToken with
  | none => ⟨200, true, db⟩
  | some tok => ⟨200, true, db.map (pullRefreshToken callerId tok)⟩

/-- One entry of the in-memory rate-limit store. -/
structure RLRecord where
  count : Nat
  resetTime : Nat
deriving DecidableEq

/-- The rate-limit store, keyed by caller identity. -/
def RLStore : Type := String → Option RLRecord

/-- The store before any request. -/
def emptyRLStore : RLStore := fun _ => none

/-- rateLimitStore.set(key, record). -/
def setStore (store : RLStore) (key : String) (r : RLRecord) : RLStore :=
  fun k => if k = key then some r else store k

/-- Whether a request passes the rate limiter (next is called) or is denied
with HTTP 429. -/
inductive RLResult where
  | allowed
  | denied429
deriving DecidableEq

/-- middleware/auth.js rateLimit: an absent key, or a key whose window has
expired (now strictly past resetTime), is reset to count 1 with a fresh
window and allowed; a record at or past maxRequests is denied with 429; any
other record is incremented and allowed. -/
def rateLimitCheck (maxRequests windowMs : Nat) (store : RLStore)
    (identifier : String) (now : Nat) : RLResult × RLStore :=
  match store identifier with
  | none => (.allowed, setStore store identifier ⟨1, now + windowMs⟩)
  | some record =>
    if now > record.resetTime then
      (.allowed, setStore store identifier ⟨1, now + windowMs⟩)
    else if record.count ≥ maxRequests then
      (.denied429, store)
    else
      (.allowed, setStore store identifier ⟨record.count + 1, record.resetTime⟩)

/-- Concrete configuration used by the concrete instantiations below. -/
def demoCfg : AuthConfig := ⟨"accsecret", "refsecret", "topsecret", 5, 7200000⟩

/-- A regular user whose account is locked until t = 5000. -/
def demoUser : UserDoc := ⟨1, "bob", "bob@example.com", "pwhash", "user", true, 2, some 5000, []⟩

/-- An admin user with no failed attempts and no lock. -/
def demoAdmin : UserDoc := ⟨2, "boss", "boss@example.com", "adminhash", "admin", true, 0, none, []⟩

/-- The user collection used by the concrete instantiations below. -/
def demoDb : List UserDoc := [demoUser, demoAdmin]

/-- The refresh token demoCfg issues for user 1 at t = 0. -/
def demoRefreshTok : Token := generateRefreshToken demoCfg 1 0

/-- A token that was never handed to any user. -/
def strayTok : Token := ⟨⟨9, none⟩, "refsecret", 604800000⟩

/-- An active user holding demoRefreshTok in the stored refresh-token list. -/
def demoHolder : UserDoc :=
  ⟨1, "bob", "bob@example.com", "pwhash", "user", true, 0, none, [demoRefreshTok]⟩

/-- The user collection for the refresh/logout instantiations. -/
def demoDb2 : List UserDoc := [demoHolder]

/-- A store holding one nearly-expired record, used by a concrete
instantiation below. -/
def demoStore : RLStore := setStore emptyRLStore "k" ⟨3, 400⟩

theorem list_map_id_of_mem {α : Type} {f : α → α} {l : List α}
    (h : ∀ a ∈ l, f a = a) : l.map f = l := by
  induction l with
  | nil => rfl
  | cons x xs ih =>
    rw [List.map_cons, h x (List.mem_cons_self x xs),
      ih (fun a ha => h a (List.mem_cons_of_mem x ha))]

theorem list_map_congr_mem {α β : Type} {f g : α → β} {l : List α}
    (h : ∀ a ∈ l, f a = g a) : l.map f = l.map g := by
  induction l with
  | nil => rfl
  | cons x xs ih =>
    rw [List.map_cons, List.map_cons, h x (List.mem_cons_self x xs),
      ih (fun a ha => h a (List.mem_cons_of_mem x ha))]

theorem list_filter_eq_self_of_forall {α : Type} {p : α → Bool} {l : List α}
    (h : ∀ a ∈ l, p a = true) : l.filter p = l := by
  induction l with
  | nil => rfl
  | cons x xs ih =>
    rw [List.filter_cons, if_pos (h x (List.mem_cons_self x xs)),
      ih (fun a ha => h a (List.mem_cons_of_mem x ha))]

theorem list_filter_idem {α : Type} (p : α → Bool) (l : List α) :
    (l.filter p).filter p = l.filter p :=
  list_filter_eq_self_of_forall (fun _ ha => List.of_mem_filter ha)

theorem setStore_count_le {store : RLStore} {key k : String} {rec r : RLRecord} {m : Nat}
    (hinv : ∀ k2 r2, store k2 = some r2 → r2.count ≤ m) (hrec : rec.count ≤ m)
    (hk : setStore store key rec k = some r) : r.count ≤ m := by
  unfold setStore at hk
  by_cases hki : k = key
  · rw [if_pos hki] at hk
    cases hk
    exact hrec
  · rw [if_neg hki] at hk
    exact hinv k r hk

/-- C1: every self-registration request carrying role=admin is rejected by
the admin-role guard before any other validation runs, no user record is
created, and the failure status is 403 (amended from 400). -/
theorem register_admin_role_rejected (hash : String → String) (db : List UserDoc)
    (username email password : String) (nextId : Nat) :
    register hash db username email password (some "admin") nextId = ⟨403, false, db⟩ := by
  simp [register]

/-- C1 counterexample: a self-registration request carrying role=admin whose
other fields are all valid is rejected with status 403 and creates no user
record; the status is not the 400 the claim states. -/
theorem register_admin_role_not_400 :
    (register (fun s => s) [] "alice" "alice@example.com" "password123" (some "admin") 1).status
      = 403 ∧
    ¬ (register (fun s => s) [] "alice" "alice@example.com" "password123" (some "admin") 1).status
      = 400 ∧
    (register (fun s => s) [] "alice" "alice@example.com" "password123" (some "admin") 1).db
      = [] := by
  decide

/-- C8: a token issued by generateAccessToken and verified with the access
secret before its 1-day expiry decodes to exactly {id, role}, and a token
issued by generateRefreshToken and verified with the refresh secret before
its 7-day expiry decodes to exactly {id}. -/
theorem token_roundtrip (cfg : AuthConfig) (userId : Nat) (role : String)
    (now tA tR : Nat) (hA : tA < now + dayMs) (hR : tR < now + 7 * dayMs) :
    jwtVerify (generateAccessToken cfg userId role now) cfg.jwtSecret tA
      = .ok ⟨userId, some role⟩ ∧
    jwtVerify (generateRefreshToken cfg userId now) cfg.jwtRefreshSecret tR
      = .ok ⟨userId, none⟩ := by
  unfold dayMs at hA hR
  constructor
  · unfold jwtVerify generateAccessToken jwtSign
    rw [if_neg (by simp), if_neg (by simp [dayMs]; omega)]
  · unfold jwtVerify generateRefreshToken jwtSign
    rw [if_neg (by simp), if_neg (by simp [dayMs]; omega)]

/-- C8 witness: the round-trip at a concrete user, role and time. -/
theorem token_roundtrip_witness :
    jwtVerify (generateAccessToken demoCfg 1 "user" 0) demoCfg.jwtSecret 100
      = .ok ⟨1, some "user"⟩ ∧
    jwtVerify (generateRefreshToken demoCfg 1 0) demoCfg.jwtRefreshSecret 100
      = .ok ⟨1, none⟩ :=
  token_roundtrip demoCfg 1 "user" 0 100 100 (by decide) (by decide)

/-- C10: when the rate limiter denies a request (the key has a record, the
window has not expired, and the count has reached the maximum), the outcome
is the 429 denial and the store is returned completely unchanged: the denied
request consumes no quota and does not extend the window. -/
theorem rateLimit_denied_frame (maxRequests windowMs : Nat) (store : RLStore)
    (ident : String) (now : Nat) (r : RLRecord)
    (hGet : store ident = some r) (hWin : ¬ now > r.resetTime)
    (hMax : r.count ≥ maxRequests) :
    rateLimitCheck maxRequests windowMs store ident now = (.denied429, store) := by
  simp only [rateLimitCheck, hGet]
  rw [if_neg hWin, if_pos hMax]

/-- C10 witness: a concrete denial leaves the concrete store untouched. -/
theorem rateLimit_denied_frame_witness :
    rateLimitCheck 3 60000 demoStore "k" 300 = (.denied429, demoStore) :=
  rateLimit_denied_frame 3 60000 demoStore "k" 300 ⟨3, 400⟩ rfl (by decide) (by decide)

/-- C5: the rate limiter check resets an absent or expired key to count 1
with a fresh window and allows it, increments and allows a live record below
the maximum, and denies with 429 at the maximum; concretely, with max 3 and
a 1000 ms window, three in-window calls on one key are allowed, the fourth
is denied, and a call after the window elapses is allowed with a fresh
count of 1. -/
theorem rateLimit_check_spec :
    (∀ maxRequests windowMs store ident now,
      (store ident = none →
        rateLimitCheck maxRequests windowMs store ident now =
          (.allowed, setStore store ident ⟨1, now + windowMs⟩)) ∧
      (∀ r, store ident = some r → now > r.resetTime →
        rateLimitCheck maxRequests windowMs store ident now =
          (.allowed, setStore store ident ⟨1, now + windowMs⟩)) ∧
      (∀ r, store ident = some r → ¬ now > r.resetTime → r.count < maxRequests →
        rateLimitCheck maxRequests windowMs store ident now =
          (.allowed, setStore store ident ⟨r.count + 1, r.resetTime⟩)) ∧
      (∀ r, store ident = some r → ¬ now > r.resetTime → ¬ r.count < maxRequests →
        rateLimitCheck maxRequests windowMs store ident now = (.denied429, store))) ∧
    ((rateLimitCheck 3 1000 emptyRLStore "k" 0).1 = .allowed ∧
     (rateLimitCheck 3 1000
       (rateLimitCheck 3 1000 emptyRLStore "k" 0).2 "k" 100).1 = .allowed ∧
     (rateLimitCheck 3 1000
       (rateLimitCheck 3 1000
         (rateLimitCheck 3 1000 emptyRLStore "k" 0).2 "k" 100).2 "k" 200).1 = .allowed ∧
     (rateLimitCheck 3 1000
       (rateLimitCheck 3 1000
         (rateLimitCheck 3 1000
           (rateLimitCheck 3 1000 emptyRLStore "k" 0).2 "k" 100).2 "k" 200).2
         "k" 300).1 = .denied429 ∧
     (rateLimitCheck 3 1000
       (rateLimitCheck 3 1000
         (rateLimitCheck 3 1000
           (rateLimitCheck 3 1000
             (rateLimitCheck 3 1000 emptyRLStore "k" 0).2 "k" 100).2 "k" 200).2
           "k" 300).2 "k" 1001).1 = .allowed ∧
     (rateLimitCheck 3 1000
       (rateLimitCheck 3 1000
         (rateLimitCheck 3 1000
           (rateLimitCheck 3 1000
             (rateLimitCheck 3 1000 emptyRLStore "k" 0).2 "k" 100).2 "k" 200).2
           "k" 300).2 "k" 1001).2 "k" = some ⟨1, 2001⟩) := by
  constructor
  · intro maxRequests windowMs store ident now
    refine ⟨?_, ?_, ?_, ?_⟩
    · intro h
      simp only [rateLimitCheck, h]
    · intro r h1 h2
      simp only [rateLimitCheck, h1]
      rw [if_pos h2]
    · intro r h1 h2 h3
      simp only [rateLimitCheck, h1]
      rw [if_neg h2, if_neg (by omega)]
    · intro r h1 h2 h3
      simp only [rateLimitCheck, h1]
      rw [if_neg h2, if_pos (by omega)]
  · decide

/-- C5 witness: the reset branch applied to the empty store at a concrete
key and time. -/
theorem rateLimit_check_spec_witness :
    rateLimitCheck 3 1000 emptyRLStore "k" 0 =
      (.allowed, setStore emptyRLStore "k" ⟨1, 1000⟩) :=
  (rateLimit_check_spec.1 3 1000 emptyRLStore "k" 0).1 rfl

/-- C9: the rate-limiter check preserves the invariant that no stored record
exceeds the configured maximum (any maximum of at least 1, covering the
configured values 100 and 50), and whenever the check observes a record
whose window has expired (now past resetTime) it resets that key to a fresh
window with count 1. -/
theorem rateLimit_count_invariant (maxRequests windowMs : Nat) (store : RLStore)
    (ident k : String) (now : Nat) (r : RLRecord) (hmax : 1 ≤ maxRequests)
    (hinv : ∀ k2 r2, store k2 = some r2 → r2.count ≤ maxRequests) :
    ((rateLimitCheck maxRequests windowMs store ident now).2 k = some r →
      r.count ≤ maxRequests) ∧
    (store ident = some r → now > r.resetTime →
      (rateLimitCheck maxRequests windowMs store ident now).2 ident =
        some ⟨1, now + windowMs⟩) := by
  constructor
  · intro hk
    cases hs : store ident with
    | none =>
      simp only [rateLimitCheck, hs] at hk
      exact setStore_count_le hinv hmax hk
    | some rec =>
      simp only [rateLimitCheck, hs] at hk
      by_cases h1 : now > rec.resetTime
      · rw [if_pos h1] at hk
        exact setStore_count_le hinv hmax hk
      · rw [if_neg h1] at hk
        by_cases h2 : rec.count ≥ maxRequests
        · rw [if_pos h2] at hk
          exact hinv k r hk
        · rw [if_neg h2] at hk
          exact setStore_count_le hinv (show rec.count + 1 ≤ maxRequests by omega) hk
  · intro hs hwin
    simp only [rateLimitCheck, hs]
    rw [if_pos hwin]
    simp [setStore]

/-- C9 witness: applied to a store holding one expired record with count 3
under maximum 50, the check resets the key to count 1 with a fresh window,
and the fresh record respects the bound. -/
theorem rateLimit_count_invariant_witness :
    (RLRecord.mk 1 60500).count ≤ 50 ∧
    (rateLimitCheck 50 60000 demoStore "k" 500).2 "k" = some ⟨1, 500 + 60000⟩ := by
  have h := rateLimit_count_invariant 50 60000 demoStore "k" "k" 500 ⟨3, 400⟩ (by decide)
    (by
      intro k2 r2 hk
      unfold demoStore setStore emptyRLStore at hk
      by_cases hki : k2 = "k"
      · rw [if_pos hki] at hk
        cases hk
        decide
      · rw [if_neg hki] at hk
        cases hk)
  have h2 := rateLimit_count_invariant 50 60000 demoStore "k" "k" 500 ⟨1, 60500⟩ (by decide)
    (by
      intro k2 r2 hk
      unfold demoStore setStore emptyRLStore at hk
      by_cases hki : k2 = "k"
      · rw [if_pos hki] at hk
        cases hk
        decide
      · rw [if_neg hki] at hk
        cases hk)
  refine ⟨h2.1 ?_, h.2 rfl (by decide)⟩
  have h3 := h.2 rfl (by decide)
  exact h3

/-- C2: a login attempt against a locked account (lock-until in the future)
that reaches the lock check (for an admin account, a correct non-empty admin
secret was supplied) is rejected with status 423, persists no change to the
user document (failed-login counter and lock-until untouched), and never
performs the password comparison — for every supplied password, correct or
not, under every hash function. -/
theorem login_locked_rejects (cfg : AuthConfig) (hash : String → String)
    (db : List UserDoc) (email password : String) (adminToken : Option String)
    (now : Nat) (user : UserDoc)
    (hEmail : email ≠ "") (hPw : password ≠ "")
    (hFound : findOneByEmail db email = some user)
    (hAdm : user.role = "admin" → adminTokenValid cfg adminToken = true)
    (hLock : isLocked user now = true) :
    login cfg hash db email password adminToken now =
      ⟨423, false, some user, false, none, none⟩ := by
  have hadm : ¬ (user.role = "admin" ∧ adminTokenValid cfg adminToken = false) := by
    rintro ⟨hrole, hvalid⟩
    rw [hAdm hrole] at hvalid
    exact absurd hvalid (by decide)
  simp only [login, hFound]
  rw [if_neg (by simp [hEmail, hPw]), if_neg hadm, if_pos hLock]

/-- C2 witness: a locked regular user is rejected with 423 and left
untouched even though the stored hash matches the supplied password under
the identity hash. -/
theorem login_locked_rejects_witness :
    login demoCfg (fun s => s) demoDb "bob@example.com" "pwhash" none 1000 =
      ⟨423, false, some demoUser, false, none, none⟩ :=
  login_locked_rejects demoCfg (fun s => s) demoDb "bob@example.com" "pwhash" none 1000
    demoUser (by decide) (by decide) (by decide) (by decide) (by decide)

/-- C3: a login attempt against a fetched admin account with the admin token
absent or unequal to the configured secret increments the failed-login
counter on the persisted document, responds with status 403, and never
performs the password comparison. -/
theorem login_admin_token_required (cfg : AuthConfig) (hash : String → String)
    (db : List UserDoc) (email password : String) (adminToken : Option String)
    (now : Nat) (user : UserDoc)
    (hEmail : email ≠ "") (hPw : password ≠ "")
    (hFound : findOneByEmail db email = some user)
    (hRole : user.role = "admin")
    (hTok : adminToken = none ∨ ∃ t, adminToken = some t ∧ t ≠ cfg.adminSecretToken) :
    login cfg hash db email password adminToken now =
      ⟨403, false, some (incrementLoginAttempts cfg user now), false, none, none⟩ ∧
    (incrementLoginAttempts cfg user now).loginAttempts = user.loginAttempts + 1 := by
  have hvalid : adminTokenValid cfg adminToken = false := by
    rcases hTok with h | ⟨t, ht, hne⟩
    · rw [h]
      rfl
    · rw [ht]
      simp only [adminTokenValid]
      rw [show (t == cfg.adminSecretToken) = false from beq_eq_false_iff_ne.mpr hne,
        Bool.and_false]
  constructor
  · simp only [login, hFound]
    rw [if_neg (by simp [hEmail, hPw]), if_pos ⟨hRole, hvalid⟩]
  · rfl

/-- C3 witness: an admin login with no adminToken at all is rejected with
403 and the persisted counter goes from 0 to 1, with the password never
compared. -/
theorem login_admin_token_required_witness :
    login demoCfg (fun s => s) demoDb "boss@example.com" "adminhash" none 77 =
      ⟨403, false, some (incrementLoginAttempts demoCfg demoAdmin 77), false, none, none⟩ ∧
    (incrementLoginAttempts demoCfg demoAdmin 77).loginAttempts =
      demoAdmin.loginAttempts + 1 :=
  login_admin_token_required demoCfg (fun s => s) demoDb "boss@example.com" "adminhash"
    none 77 demoAdmin (by decide) (by decide) (by decide) (by decide) (Or.inl rfl)

theorem pullRefreshToken_idem (callerId : Nat) (tok : Token) (u : UserDoc) :
    pullRefreshToken callerId tok (pullRefreshToken callerId tok u) =
      pullRefreshToken callerId tok u := by
  by_cases hid : u.id = callerId <;>
    simp [pullRefreshToken, hid, list_filter_idem]

/-- C4: for a refresh request whose token verifies against the refresh
secret (valid signature, unexpired), the request succeeds exactly when the
decoded subject user exists, is active, and the literal token is still in
that user stored refresh-token list; the user collection is never modified
(no rotation, append or removal), and on success the response carries a
freshly issued access token for that user. -/
theorem refresh_valid_token_spec (cfg : AuthConfig) (db : List UserDoc) (tok : Token)
    (now : Nat) (decoded : Claims)
    (hVerify : jwtVerify tok cfg.jwtRefreshSecret now = .ok decoded) :
    ((refresh cfg db (some tok) now).success = true ↔
      ∃ u, findById db decoded.id = some u ∧ u.isActive = true ∧ tok ∈ u.refreshTokens) ∧
    (refresh cfg db (some tok) now).db = db ∧
    (∀ u, findById db decoded.id = some u → u.isActive = true → tok ∈ u.refreshTokens →
      refresh cfg db (some tok) now =
        ⟨200, true, some (generateAccessToken cfg u.id u.role now), db⟩) := by
  cases hf : findById db decoded.id with
  | none =>
    refine ⟨?_, ?_, ?_⟩
    · simp only [refresh, hVerify, hf]
      constructor
      · intro h
        exact Bool.noConfusion h
      · rintro ⟨u, hu, -, -⟩
        exact Option.noConfusion hu
    · simp only [refresh, hVerify, hf]
    · intro u hu
      exact Option.noConfusion hu
  | some u =>
    by_cases hact : u.isActive = false
    · refine ⟨?_, ?_, ?_⟩
      · simp only [refresh, hVerify, hf]
        rw [if_pos hact]
        constructor
        · intro h
          exact Bool.noConfusion h
        · rintro ⟨u2, hu2, hax, -⟩
          obtain rfl := Option.some.inj hu2
          rw [hact] at hax
          exact Bool.noConfusion hax
      · simp only [refresh, hVerify, hf]
        rw [if_pos hact]
      · intro u2 hu2 hax
        obtain rfl := Option.some.inj hu2
        rw [hact] at hax
        exact Bool.noConfusion hax
    · have hax : u.isActive = true := by
        cases h2 : u.isActive
        · exact absurd h2 hact
        · rfl
      by_cases hmem : tok ∈ u.refreshTokens
      · have hnotmem : ¬ tok ∉ u.refreshTokens := fun hn => hn hmem
        refine ⟨?_, ?_, ?_⟩
        · simp only [refresh, hVerify, hf]
          rw [if_neg hact, if_neg hnotmem]
          exact ⟨fun _ => ⟨u, rfl, hax, hmem⟩, fun _ => rfl⟩
        · simp only [refresh, hVerify, hf]
          rw [if_neg hact, if_neg hnotmem]
        · intro u2 hu2 _ _
          obtain rfl := Option.some.inj hu2
          simp only [refresh, hVerify, hf]
          rw [if_neg hact, if_neg hnotmem]
      · refine ⟨?_, ?_, ?_⟩
        · simp only [refresh, hVerify, hf]
          rw [if_neg hact, if_pos hmem]
          constructor
          · intro h
            exact Bool.noConfusion h
          · rintro ⟨u2, hu2, -, hmem2⟩
            obtain rfl := Option.some.inj hu2
            exact absurd hmem2 hmem
        · simp only [refresh, hVerify, hf]
          rw [if_neg hact, if_pos hmem]
        · intro u2 hu2 _ hmem2
          obtain rfl := Option.some.inj hu2
          exact absurd hmem2 hmem

/-- C4 witness: a signature-valid unexpired refresh token held by an active
user yields a fresh access token and leaves the collection unchanged. -/
theorem refresh_valid_token_spec_witness :
    refresh demoCfg demoDb2 (some demoRefreshTok) 100 =
      ⟨200, true, some (generateAccessToken demoCfg 1 "user" 100), demoDb2⟩ :=
  (refresh_valid_token_spec demoCfg demoDb2 demoRefreshTok 100 ⟨1, none⟩
    (by decide)).2.2 demoHolder (by decide) (by decide) (by decide)

/-- C6 (amended): every refresh failure in which the refresh-token field was
actually supplied has status 401; only the missing-field case deviates with
status 400. -/
theorem refresh_failure_status_401 (cfg : AuthConfig) (db : List UserDoc) (tok : Token)
    (now : Nat) (hFail : (refresh cfg db (some tok) now).success = false) :
    (refresh cfg db (some tok) now).status = 401 := by
  cases hv : jwtVerify tok cfg.jwtRefreshSecret now with
  | expired => simp only [refresh, hv]
  | invalid => simp only [refresh, hv]
  | ok decoded =>
    cases hf : findById db decoded.id with
    | none => simp only [refresh, hv, hf]
    | some u =>
      by_cases hact : u.isActive = false
      · simp only [refresh, hv, hf]
        rw [if_pos hact]
      · by_cases hmem : tok ∉ u.refreshTokens
        · simp only [refresh, hv, hf]
          rw [if_neg hact, if_pos hmem]
        · exfalso
          simp only [refresh, hv, hf] at hFail
          rw [if_neg hact, if_neg hmem] at hFail
          exact Bool.noConfusion hFail

/-- C6 counterexample: a refresh request with the refresh-token field
missing fails with status 400, not the 401 the claim states for every
failure. -/
theorem refresh_missing_token_400 :
    (refresh demoCfg [] none 0).success = false ∧
    (refresh demoCfg [] none 0).status = 400 ∧
    ¬ (refresh demoCfg [] none 0).status = 401 := by
  decide

/-- C6 witness: a failing refresh whose token was supplied but revoked (not
in any user list) gets status 401. -/
theorem refresh_failure_status_401_witness :
    (refresh demoCfg demoDb2 (some strayTok) 100).status = 401 :=
  refresh_failure_status_401 demoCfg demoDb2 strayTok 100 (by decide)

/-- C7: logout always answers 200 with success for an authenticated caller;
when the supplied refresh token is absent from the caller list (for every
document of the collection that could be the caller) the collection is left
unchanged, and running the same logout a second time changes nothing more —
calling logout twice with the same token succeeds both times. -/
theorem logout_idempotent (db : List UserDoc) (callerId : Nat) (tok : Token) :
    (logout db callerId (some tok)).status = 200 ∧
    (logout db callerId (some tok)).success = true ∧
    ((∀ u ∈ db, u.id = callerId → tok ∉ u.refreshTokens) →
      (logout db callerId (some tok)).db = db) ∧
    logout (logout db callerId (some tok)).db callerId (some tok) =
      logout db callerId (some tok) := by
  refine ⟨rfl, rfl, ?_, ?_⟩
  · intro h
    simp only [logout]
    apply list_map_id_of_mem
    intro u hu
    unfold pullRefreshToken
    by_cases hid : u.id = callerId
    · rw [if_pos hid]
      have hfil : u.refreshTokens.filter (fun t => !(t == tok)) = u.refreshTokens := by
        apply list_filter_eq_self_of_forall
        intro t ht
        have hne : t ≠ tok := fun he => (h u hu hid) (he ▸ ht)
        simp [hne]
      rw [hfil]
    · rw [if_neg hid]
  · simp only [logout]
    congr 1
    apply list_map_id_of_mem
    intro v hv
    obtain ⟨u, -, rfl⟩ := List.mem_map.mp hv
    exact pullRefreshToken_idem callerId tok u

/-- C7 witness: logging out with a token that is not in the caller list
succeeds, leaves the collection unchanged, and a second identical logout
also succeeds and changes nothing. -/
theorem logout_idempotent_witness :
    (logout demoDb2 1 (some strayTok)).status = 200 ∧
    (logout demoDb2 1 (some strayTok)).success = true ∧
    (logout demoDb2 1 (some strayTok)).db = demoDb2 ∧
    logout (logout demoDb2 1 (some strayTok)).db 1 (some strayTok) =
      logout demoDb2 1 (some strayTok) := by
  have h := logout_idempotent demoDb2 1 strayTok
  exact ⟨h.1, h.2.1, h.2.2.1 (by decide), h.2.2.2⟩

end CrocheMahek
